import Mathlib

/-!
Shallow embedding of `praw/exceptions.py` (the PRAW exception module) and
proofs about it.

Conventions of the embedding:

* A Python value that is either a string or `None` is `Option String`
  (`none` stands for Python `None`).
* Python exceptions raised by an operation are made explicit with
  `Except PyErr`; an operation that cannot raise returns its value directly.
* `RedditErrorItem` is a structure holding the three data attributes set by
  `RedditErrorItem.__init__` plus the `_called_from_reddit_api_exception`
  flag (spelled without the leading underscore).
* Heterogeneous Python values (strings, `None`, `RedditErrorItem` instances
  and nested lists), as handled by `APIException._form_exception_list`, are
  the inductive `PyVal`.
-/

namespace Praw

/-- A Python value that is either a `str` or `None`. -/
abbrev PyStr := Option String

/-- The Python exceptions the embedded code can raise. -/
inductive PyErr where
  | attributeError (name : String)
  | indexError
  deriving DecidableEq

/-- Python truthiness of a string-or-None value: `None` and the empty string
are falsy, every other string is truthy. -/
def truthy : PyStr → Bool
  | none => false
  | some s => !s.data.isEmpty

/-- One escaped character of the Python `repr` of a string (`quote` is the
quote character chosen for the whole string): the backslash, the quote
character, and the common control characters are escaped; every other
character stands for itself.  The module's strings contain no character
outside this range. -/
def pyCharEscape (quote c : Char) : String :=
  if c = '\\' then "\\\\"
  else if c = quote then String.mk ['\\', c]
  else if c = '\n' then "\\n"
  else if c = '\r' then "\\r"
  else if c = '\t' then "\\t"
  else String.mk [c]

/-- Python `repr` of a string, as `"{!r}".format` renders it: single quotes,
switching to double quotes when the string contains a single quote but no
double quote. -/
def pyReprStr (s : String) : String :=
  let quote : Char := if s.data.contains '\'' && !(s.data.contains '"') then '"' else '\''
  String.mk [quote] ++ String.join (s.data.map (pyCharEscape quote)) ++ String.mk [quote]

/-- Python `repr` of a string-or-None value (`repr(None)` is `"None"`). -/
def pyRepr : PyStr → String
  | none => "None"
  | some s => pyReprStr s

/-- Python `str` of a string-or-None value, as `"{}".format` renders it
(`str(None)` is `"None"`). -/
def pyStrOf : PyStr → String
  | none => "None"
  | some s => s

/-- `RedditErrorItem`: one error returned from the API.  The three data
attributes are assigned by `__init__`; `called_from_reddit_api_exception`
models the `_called_from_reddit_api_exception` flag, `False` on
construction. -/
structure RedditErrorItem where
  error_type : PyStr
  message : PyStr
  field : PyStr
  called_from_reddit_api_exception : Bool
  deriving DecidableEq

/-- `RedditErrorItem.__init__`: stores the three attributes and clears the
flag. -/
def RedditErrorItem.init (error_type message field : PyStr) : RedditErrorItem :=
  ⟨error_type, message, field, false⟩

/-- The `RedditErrorItem.error_message` property:
`"{}: {!r}".format(self.error_type, self.message)`, with
`" on field {!r}".format(self.field)` appended when `self.field` is
truthy. -/
def RedditErrorItem.error_message (self : RedditErrorItem) : String :=
  let error_str := pyStrOf self.error_type ++ ": " ++ pyRepr self.message
  if truthy self.field then error_str ++ (" on field " ++ pyRepr self.field)
  else error_str

/-- `RedditErrorItem.__str__`: returns `self.error_message`. -/
def RedditErrorItem.str (self : RedditErrorItem) : String :=
  self.error_message

/-- `RedditErrorItem.__repr__`: the constructor-style string while the flag
is clear, `str(self)` once it is set. -/
def RedditErrorItem.repr (self : RedditErrorItem) : String :=
  if !self.called_from_reddit_api_exception then
    "RedditErrorItem(error_type=" ++ pyRepr self.error_type ++ ", message=" ++
      pyRepr self.message ++ ", field=" ++ pyRepr self.field ++ ")"
  else RedditErrorItem.str self

/-- A heterogeneous Python value as passed around by
`APIException._form_exception_list`: a string, `None`, a `RedditErrorItem`,
or a (possibly nested) list of such values. -/
inductive PyVal where
  | str (s : String)
  | pynone
  | item (r : RedditErrorItem)
  | list (l : List PyVal)

/-- `RedditErrorItem.__eq__`: structural equality of the
`(error_type, message, field)` triples against another `RedditErrorItem`;
against any other value Python falls back to `object.__eq__`
(`NotImplemented`, then identity), which yields `False` and never raises —
hence the result is always `Except.ok`. -/
def RedditErrorItem.eq (self : RedditErrorItem) (other : PyVal) : Except PyErr Bool :=
  match other with
  | PyVal.item r =>
      Except.ok (decide ((self.error_type, self.message, self.field) =
        (r.error_type, r.message, r.field)))
  | _ => Except.ok false

/-- `getattr(item, attrname)` restricted to the three data attributes that
`APIException._get_old_attr` reads; any other name would raise
`AttributeError`. -/
def RedditErrorItem.getattr (self : RedditErrorItem) (attrname : String) :
    Except PyErr PyStr :=
  if attrname = "error_type" then Except.ok self.error_type
  else if attrname = "message" then Except.ok self.message
  else if attrname = "field" then Except.ok self.field
  else Except.error (PyErr.attributeError attrname)

/-- An element of the list `APIException._parse_exception_list` receives,
per its annotation `List[Union[RedditErrorItem, List[str]]]`: a
`RedditErrorItem`, or a raw list of string-or-None cells (the `None` cells
come from `_form_exception_list` padding). -/
inductive ExcElem where
  | item (r : RedditErrorItem)
  | rawList (cells : List PyStr)
  deriving DecidableEq

/-- The argument of `APIException.__init__`, per its annotation
`Union[List[Union[RedditErrorItem, List[str], str]], str]`. -/
inductive InitArg where
  | str (s : String)
  | list (l : List PyVal)

namespace APIException

/-- The body of the loop in `_form_exception_list` over `items` when
`items[0]` is a list: a sub-list of length 2 gets `None` appended, every
other sub-list and every non-list element (`continue`) is left unchanged. -/
def normalize_sub (e : PyVal) : PyVal :=
  match e with
  | PyVal.list l => if l.length = 2 then PyVal.list (l ++ [PyVal.pynone]) else PyVal.list l
  | _ => e

/-- `APIException._form_exception_list(items, *optional_args)`.  A bare
string becomes `[[items, *optional_args]]`; a bare `RedditErrorItem` becomes
`[items]`; then, for a list, the whole list is wrapped (padded with `None`
unless its length is 3) when its first element is a string, the per-sub-list
normalization runs when its first element is a list, and anything else is
returned unchanged.  `items[0]` on an empty list raises `IndexError`. -/
def form_exception_list (items : PyVal) (optional_args : List String) :
    Except PyErr PyVal :=
  let items := match items with
    | PyVal.str s => PyVal.list [PyVal.list (PyVal.str s :: optional_args.map PyVal.str)]
    | _ => items
  let items := match items with
    | PyVal.item r => PyVal.list [PyVal.item r]
    | _ => items
  match items with
  | PyVal.list [] => Except.error PyErr.indexError
  | PyVal.list (e0 :: rest) =>
      match e0 with
      | PyVal.str _ =>
          if (e0 :: rest).length = 3 then Except.ok (PyVal.list [PyVal.list (e0 :: rest)])
          else Except.ok (PyVal.list [PyVal.list ((e0 :: rest) ++ [PyVal.pynone])])
      | PyVal.list _ => Except.ok (PyVal.list ((e0 :: rest).map normalize_sub))
      | _ => Except.ok (PyVal.list (e0 :: rest))
  | other => Except.ok other

/-- One element of the comprehension in `_parse_exception_list`: a
`RedditErrorItem` passes through; a raw list is read at indices 0, 1 and 2
(`IndexError` when it is shorter) and becomes
`RedditErrorItem(exception[0], exception[1],
exception[2] if bool(exception[2]) else "")`. -/
def parse_exception_elem : ExcElem → Except PyErr RedditErrorItem
  | ExcElem.item r => Except.ok r
  | ExcElem.rawList cells =>
      match cells with
      | c0 :: c1 :: c2 :: _ =>
          Except.ok (RedditErrorItem.init c0 c1 (if truthy c2 then c2 else some ""))
      | _ => Except.error PyErr.indexError

/-- The `baselist` comprehension of `_parse_exception_list`, element by
element; the first raised exception propagates. -/
def parse_exception_base : List ExcElem → Except PyErr (List RedditErrorItem)
  | [] => Except.ok []
  | e :: rest =>
      match parse_exception_elem e with
      | Except.error err => Except.error err
      | Except.ok r =>
          match parse_exception_base rest with
          | Except.error err => Except.error err
          | Except.ok rs => Except.ok (r :: rs)

/-- The in-place `exception._called_from_reddit_api_exception = True` of the
loop at the end of `_parse_exception_list`. -/
def setCalledFlag (r : RedditErrorItem) : RedditErrorItem :=
  { r with called_from_reddit_api_exception := true }

/-- `APIException._parse_exception_list`: builds `baselist` by the
comprehension, then sets the flag on every record of it. -/
def parse_exception_list (exceptions : List ExcElem) :
    Except PyErr (List RedditErrorItem) :=
  match parse_exception_base exceptions with
  | Except.error err => Except.error err
  | Except.ok baselist => Except.ok (baselist.map setCalledFlag)

/-- The warning text of `APIException._get_old_attr`, with `attrname`
formatted in (the source's adjacent string literals concatenated). -/
def deprecation_message (attrname : String) : String :=
  "Accessing attribute ``" ++ attrname ++ "`` through APIException is deprecated. This behavior will be removed in PRAW 8.0. Check out https://praw.readthedocs.io/en/latest/package_info/praw7_migration.html to learn how to migrate your code."

/-- The observable outcome of an operation that may emit warnings before
returning (or raising): the `DeprecationWarning` messages in order, and the
result. -/
structure WarnOutput (α : Type) where
  warnings : List String
  result : Except PyErr α

/-- `APIException._get_old_attr(self, attrname)`, as a function of
`self.items`: `warn(...)` always fires once, then
`getattr(self.items[0], attrname)` is returned (`IndexError` when `items`
is empty). -/
def get_old_attr (items : List RedditErrorItem) (attrname : String) :
    WarnOutput PyStr :=
  ⟨[deprecation_message attrname],
    match items with
    | [] => Except.error PyErr.indexError
    | r :: _ => r.getattr attrname⟩

/-- The deprecated `APIException.error_type` property, as a function of
`self.items`. -/
def error_type (items : List RedditErrorItem) : WarnOutput PyStr :=
  get_old_attr items "error_type"

/-- The deprecated `APIException.message` property, as a function of
`self.items`. -/
def message (items : List RedditErrorItem) : WarnOutput PyStr :=
  get_old_attr items "message"

/-- The deprecated `APIException.field` property, as a function of
`self.items`. -/
def field (items : List RedditErrorItem) : WarnOutput PyStr :=
  get_old_attr items "field"

/-- `APIException.__init__(self, items, *optional_args)`.  The source first
rebinds `items` (a bare string becomes `[[items, *optional_args]]`; a list
whose first element is a string is wrapped, which on an empty list raises
`IndexError` at the `items[0]` guard), then evaluates
`self.parse_exception_list(items)`.  No `parse_exception_list` attribute
exists anywhere in the hierarchy — the class defines only
`_form_exception_list` and `_parse_exception_list`, and neither
`PRAWException` nor `Exception` supplies the name — so every path that
reaches the call raises `AttributeError` before `self.items` is assigned.
The result is the `self.items` the constructor would store. -/
def init (items : InitArg) (optionalArgs : List String) :
    Except PyErr (List RedditErrorItem) :=
  let _ := optionalArgs
  match items with
  | InitArg.str _ => Except.error (PyErr.attributeError "parse_exception_list")
  | InitArg.list [] => Except.error PyErr.indexError
  | InitArg.list (_ :: _) => Except.error (PyErr.attributeError "parse_exception_list")

end APIException

/-- `TooLargeMediaException`: the attributes its `__init__` stores, and the
message it passes to `super().__init__`. -/
structure TooLargeMediaException where
  maximum_size : Int
  actual : Int
  excMessage : String

/-- `TooLargeMediaException.__init__(maximum_size, actual)`: stores both
sizes and formats them into the fixed message. -/
def TooLargeMediaException.init (maximum_size actual : Int) : TooLargeMediaException :=
  ⟨maximum_size, actual,
    "The media that you uploaded was too large (maximum size is " ++
      toString maximum_size ++ " bytes, uploaded " ++ toString actual ++ " bytes)"⟩

/-- `hay` contains `needle` as a contiguous substring. -/
def strContains (hay needle : String) : Prop :=
  ∃ pre post : String, hay = pre ++ needle ++ post

/-- The invariant of a constructor outcome: when construction completed
successfully, the stored error list is non-empty. -/
def errors_nonempty_on_success : Except PyErr (List RedditErrorItem) → Prop
  | Except.ok items => items ≠ []
  | Except.error _ => True

/-- How one input element of `_parse_exception_list` relates to the record
produced for it: a `RedditErrorItem` keeps its three data attributes; a raw
triple `[t, m, f]` yields kind `t`, message `m`, and as field `f` when `f`
is truthy and the empty string otherwise — never `None`. -/
def parsed_matches : ExcElem → RedditErrorItem → Prop
  | ExcElem.item r, out =>
      out.error_type = r.error_type ∧ out.message = r.message ∧ out.field = r.field
  | ExcElem.rawList cells, out =>
      ∀ t m f : PyStr, cells = [t, m, f] →
        out.error_type = t ∧ out.message = m ∧
        out.field = (if truthy f then f else some "") ∧ out.field ≠ none

/-!  Theorems for the claims.  -/

/-- C1 (counterexample): constructing the API exception with the single
string "simple message" does not yield a one-record errors sequence with
kind "simple message" and empty message and field — it does not yield
anything: the constructor raises `AttributeError` for the undefined
`parse_exception_list`. -/
theorem claim1_single_string_counterexample :
    APIException.init (InitArg.str "simple message") [] ≠
      Except.ok [RedditErrorItem.mk (some "simple message") (some "") (some "") true] ∧
    APIException.init (InitArg.str "simple message") [] =
      Except.error (PyErr.attributeError "parse_exception_list") :=
  ⟨by simp [APIException.init], rfl⟩

/-- C1 (amended): constructing the API exception with the single string
"simple message" (with any optional arguments) raises
`AttributeError("parse_exception_list")`, so no errors sequence is
produced. -/
theorem claim1_single_string_construction :
    ∀ optionalArgs : List String,
      APIException.init (InitArg.str "simple message") optionalArgs =
        Except.error (PyErr.attributeError "parse_exception_list") :=
  fun _ => rfl

/-- C2 (counterexample): on the empty list, `APIException.__init__` raises
`IndexError` at the `items[0]` guard, not `AttributeError` — so not every
input raises `AttributeError`. -/
theorem claim2_empty_list_counterexample :
    APIException.init (InitArg.list []) [] = Except.error PyErr.indexError ∧
    PyErr.indexError ≠ PyErr.attributeError "parse_exception_list" :=
  ⟨rfl, by simp⟩

/-- C2 (amended): `APIException.__init__` raises
`AttributeError("parse_exception_list")` on every input except the empty
list, where the `items[0]` shape guard raises `IndexError` first; in either
case construction fails, so no instance with an `items` attribute is ever
constructed through `__init__`. -/
theorem claim2_init_always_raises :
    ∀ (items : InitArg) (optionalArgs : List String),
      (items ≠ InitArg.list [] →
        APIException.init items optionalArgs =
          Except.error (PyErr.attributeError "parse_exception_list")) ∧
      APIException.init (InitArg.list []) optionalArgs = Except.error PyErr.indexError ∧
      (∀ res, APIException.init items optionalArgs ≠ Except.ok res) := by
  intro items optionalArgs
  refine ⟨?_, rfl, ?_⟩
  · intro hne
    match items with
    | InitArg.str s => rfl
    | InitArg.list [] => exact absurd rfl hne
    | InitArg.list (e :: rest) => rfl
  · intro res h
    match items with
    | InitArg.str s => exact Except.noConfusion h
    | InitArg.list [] => exact Except.noConfusion h
    | InitArg.list (e :: rest) => exact Except.noConfusion h

/-- C2 (witness): the theorem applied at the concrete input `"x"`. -/
theorem claim2_init_always_raises_witness :
    APIException.init (InitArg.str "x") [] =
      Except.error (PyErr.attributeError "parse_exception_list") :=
  (claim2_init_always_raises (InitArg.str "x") []).1 (fun h => nomatch h)

/-- C3: whenever `APIException.__init__` completes successfully, the stored
errors sequence is non-empty.  (It holds vacuously: `__init__` never
completes successfully, see C2.) -/
theorem claim3_errors_nonempty :
    ∀ (items : InitArg) (optionalArgs : List String),
      errors_nonempty_on_success (APIException.init items optionalArgs) := by
  intro items optionalArgs
  match items with
  | InitArg.str s => exact trivial
  | InitArg.list [] => exact trivial
  | InitArg.list (e :: rest) => exact trivial

/-- C9: `TooLargeMediaException(maximum_size, actual)` keeps both arguments
as attributes and its message contains the decimal rendering of both; at
`(1000, 2000)` the message is the expected literal, containing "1000" and
"2000". -/
theorem claim9_too_large_media :
    ∀ maximum_size actual : Int,
      (TooLargeMediaException.init maximum_size actual).maximum_size = maximum_size ∧
      (TooLargeMediaException.init maximum_size actual).actual = actual ∧
      strContains (TooLargeMediaException.init maximum_size actual).excMessage
        (toString maximum_size) ∧
      strContains (TooLargeMediaException.init maximum_size actual).excMessage
        (toString actual) ∧
      (TooLargeMediaException.init 1000 2000).excMessage =
        "The media that you uploaded was too large (maximum size is 1000 bytes, uploaded 2000 bytes)" := by
  intro maximum_size actual
  refine ⟨rfl, rfl,
    ⟨"The media that you uploaded was too large (maximum size is ",
      " bytes, uploaded " ++ toString actual ++ " bytes)", ?_⟩,
    ⟨"The media that you uploaded was too large (maximum size is " ++
        toString maximum_size ++ " bytes, uploaded ", " bytes)", ?_⟩,
    by decide⟩ <;>
  simp [TooLargeMediaException.init, String.append_assoc]

/-- C4: on an items sequence with at least one record, each deprecated
singular accessor (`error_type`, `message`, `field`) emits exactly one
deprecation warning, that warning names the accessed attribute, and the
value returned is the corresponding attribute of `items[0]` (so the access
is non-fatal). -/
theorem claim4_deprecated_accessors :
    ∀ (r : RedditErrorItem) (rest : List RedditErrorItem),
      (APIException.error_type (r :: rest)).warnings =
        [APIException.deprecation_message "error_type"] ∧
      (APIException.error_type (r :: rest)).result = Except.ok r.error_type ∧
      (APIException.message (r :: rest)).warnings =
        [APIException.deprecation_message "message"] ∧
      (APIException.message (r :: rest)).result = Except.ok r.message ∧
      (APIException.field (r :: rest)).warnings =
        [APIException.deprecation_message "field"] ∧
      (APIException.field (r :: rest)).result = Except.ok r.field ∧
      strContains (APIException.deprecation_message "error_type") "error_type" ∧
      strContains (APIException.deprecation_message "message") "message" ∧
      strContains (APIException.deprecation_message "field") "field" := by
  intro r rest
  refine ⟨rfl, rfl, rfl, rfl, rfl, rfl,
    ⟨"Accessing attribute ``",
      "`` through APIException is deprecated. This behavior will be removed in PRAW 8.0. Check out https://praw.readthedocs.io/en/latest/package_info/praw7_migration.html to learn how to migrate your code.",
      ?_⟩,
    ⟨"Accessing attribute ``",
      "`` through APIException is deprecated. This behavior will be removed in PRAW 8.0. Check out https://praw.readthedocs.io/en/latest/package_info/praw7_migration.html to learn how to migrate your code.",
      ?_⟩,
    ⟨"Accessing attribute ``",
      "`` through APIException is deprecated. This behavior will be removed in PRAW 8.0. Check out https://praw.readthedocs.io/en/latest/package_info/praw7_migration.html to learn how to migrate your code.",
      ?_⟩⟩ <;>
  simp [APIException.deprecation_message]

/-- C6 (counterexample): a list of records and lists whose FIRST element is
a `RedditErrorItem` is returned by `_form_exception_list` entirely
unchanged: the length-2 sub-list `["a", "b"]` does not get `None`
appended. -/
theorem claim6_first_item_counterexample :
    APIException.form_exception_list
        (PyVal.list [PyVal.item (RedditErrorItem.mk (some "k") (some "m") none false),
          PyVal.list [PyVal.str "a", PyVal.str "b"]]) [] =
      Except.ok
        (PyVal.list [PyVal.item (RedditErrorItem.mk (some "k") (some "m") none false),
          PyVal.list [PyVal.str "a", PyVal.str "b"]]) ∧
    PyVal.list [PyVal.str "a", PyVal.str "b"] ≠
      PyVal.list [PyVal.str "a", PyVal.str "b", PyVal.pynone] :=
  ⟨rfl, by simp⟩

/-- C6 (amended): `_form_exception_list` wraps a flat list of exactly 3
strings as a one-element list of that triple and a flat list of 2 strings
as a one-element list of the pair with `None` appended; when the list's
first element is itself a list, each element is normalized (`None` appended
to length-2 sub-lists, length-3 sub-lists unchanged, non-list elements
skipped); a list whose first element is a `RedditErrorItem` (or any other
non-string, non-list value) passes through entirely unchanged. -/
theorem claim6_form_exception_list_shapes :
    (∀ a b c : String,
      APIException.form_exception_list
          (PyVal.list [PyVal.str a, PyVal.str b, PyVal.str c]) [] =
        Except.ok (PyVal.list [PyVal.list [PyVal.str a, PyVal.str b, PyVal.str c]])) ∧
    (∀ a b : String,
      APIException.form_exception_list (PyVal.list [PyVal.str a, PyVal.str b]) [] =
        Except.ok (PyVal.list [PyVal.list [PyVal.str a, PyVal.str b, PyVal.pynone]])) ∧
    (∀ (l : List PyVal) (rest : List PyVal),
      APIException.form_exception_list (PyVal.list (PyVal.list l :: rest)) [] =
        Except.ok (PyVal.list ((PyVal.list l :: rest).map APIException.normalize_sub))) ∧
    (∀ x y : PyVal,
      APIException.normalize_sub (PyVal.list [x, y]) = PyVal.list [x, y, PyVal.pynone]) ∧
    (∀ x y z : PyVal,
      APIException.normalize_sub (PyVal.list [x, y, z]) = PyVal.list [x, y, z]) ∧
    (∀ r : RedditErrorItem, APIException.normalize_sub (PyVal.item r) = PyVal.item r) ∧
    (∀ (r : RedditErrorItem) (rest : List PyVal),
      APIException.form_exception_list (PyVal.list (PyVal.item r :: rest)) [] =
        Except.ok (PyVal.list (PyVal.item r :: rest))) :=
  ⟨fun _ _ _ => rfl, fun _ _ => rfl, fun _ _ => rfl, fun _ _ => rfl,
    fun _ _ _ => rfl, fun _ => rfl, fun _ _ => rfl⟩

/-- C7: `error_message` renders the record as its kind, a colon, and the
Python repr of its message, appending " on field " and the repr of the
field exactly when the field is truthy (present and non-empty); on
`("RATE_LIMIT", "too many requests", "body")` it renders the documented
literal. -/
theorem claim7_error_message_rendering :
    (RedditErrorItem.init (some "RATE_LIMIT") (some "too many requests")
        (some "body")).error_message =
      "RATE_LIMIT: 'too many requests' on field 'body'" ∧
    (∀ (k m : PyStr) (b : Bool),
      (RedditErrorItem.mk k m none b).error_message = pyStrOf k ++ ": " ++ pyRepr m) ∧
    (∀ (k m : PyStr) (b : Bool),
      (RedditErrorItem.mk k m (some "") b).error_message = pyStrOf k ++ ": " ++ pyRepr m) ∧
    (∀ (k m f : PyStr) (b : Bool), truthy f = true →
      (RedditErrorItem.mk k m f b).error_message =
        pyStrOf k ++ ": " ++ pyRepr m ++ " on field " ++ pyRepr f) := by
  refine ⟨by decide, fun k m b => rfl, fun k m b => rfl, fun k m f b h => ?_⟩
  simp [RedditErrorItem.error_message, h, String.append_assoc]

/-- C7 (witness): the non-empty-field clause of the theorem applied at a
concrete record. -/
theorem claim7_error_message_rendering_witness :
    (RedditErrorItem.mk (some "E") (some "M") (some "F") false).error_message =
      pyStrOf (some "E") ++ ": " ++ pyRepr (some "M") ++ " on field " ++ pyRepr (some "F") :=
  claim7_error_message_rendering.2.2.2 (some "E") (some "M") (some "F") false (by decide)

/-- C8: `RedditErrorItem` equality against another record holds exactly when
the three data attributes agree pairwise (so one differing attribute makes
it false), and comparison against any value — record or not — returns a
boolean and never raises. -/
theorem claim8_structural_equality :
    (∀ r1 r2 : RedditErrorItem,
      RedditErrorItem.eq r1 (PyVal.item r2) = Except.ok true ↔
        (r1.error_type = r2.error_type ∧ r1.message = r2.message ∧ r1.field = r2.field)) ∧
    (∀ (r : RedditErrorItem) (v : PyVal), ∃ b, RedditErrorItem.eq r v = Except.ok b) := by
  constructor
  · intro r1 r2
    simp [RedditErrorItem.eq, Prod.ext_iff]
  · intro r v
    cases v <;> exact ⟨_, rfl⟩

/-- A successful run of the `baselist` comprehension solves every element:
the lists correspond pointwise through `parse_exception_elem`. -/
theorem parse_exception_base_spec :
    ∀ {elems : List ExcElem} {result : List RedditErrorItem},
      APIException.parse_exception_base elems = Except.ok result →
      List.Forall₂ (fun e r => APIException.parse_exception_elem e = Except.ok r)
        elems result := by
  intro elems
  induction elems with
  | nil =>
      intro result h
      simp only [APIException.parse_exception_base] at h
      injection h with h'
      rw [← h']
      exact List.Forall₂.nil
  | cons e rest ih =>
      intro result h
      simp only [APIException.parse_exception_base] at h
      cases he : APIException.parse_exception_elem e with
      | error err => rw [he] at h; exact Except.noConfusion h
      | ok r =>
          rw [he] at h
          cases hr : APIException.parse_exception_base rest with
          | error err => rw [hr] at h; exact Except.noConfusion h
          | ok rs =>
              rw [hr] at h
              injection h with h'
              rw [← h']
              exact List.Forall₂.cons he (ih hr)

/-- A successful `_parse_exception_list` run is a successful comprehension
followed by the flag-setting pass. -/
theorem parse_exception_list_eq
    {elems : List ExcElem} {result : List RedditErrorItem}
    (h : APIException.parse_exception_list elems = Except.ok result) :
    ∃ base, APIException.parse_exception_base elems = Except.ok base ∧
      result = base.map APIException.setCalledFlag := by
  simp only [APIException.parse_exception_list] at h
  cases hb : APIException.parse_exception_base elems with
  | error err => rw [hb] at h; exact Except.noConfusion h
  | ok base =>
      rw [hb] at h
      injection h with h'
      exact ⟨base, rfl, h'.symm⟩

/-- C5: a successful `_parse_exception_list` run preserves the input's
length and order, and element by element a `RedditErrorItem` keeps its
three data attributes while a raw triple `[t, m, f]` becomes the record
`(t, m, f if truthy else "")`, whose field slot is never `None`. -/
theorem claim5_parse_normalization :
    ∀ (elems : List ExcElem) (result : List RedditErrorItem),
      APIException.parse_exception_list elems = Except.ok result →
      result.length = elems.length ∧ List.Forall₂ parsed_matches elems result := by
  intro elems result h
  obtain ⟨base, hb, hres⟩ := parse_exception_list_eq h
  have h2 := parse_exception_base_spec hb
  subst hres
  constructor
  · rw [List.length_map]
    exact h2.length_eq.symm
  · rw [List.forall₂_map_right_iff]
    refine h2.imp ?_
    intro e r he
    match e with
    | ExcElem.item r0 =>
        injection he with h'
        rw [← h']
        exact ⟨rfl, rfl, rfl⟩
    | ExcElem.rawList cells =>
        intro t m f hcells
        subst hcells
        simp only [APIException.parse_exception_elem] at he
        injection he with h'
        rw [← h']
        refine ⟨rfl, rfl, rfl, ?_⟩
        cases htf : truthy f with
        | true =>
            cases f with
            | none => simp [truthy] at htf
            | some s =>
                simp [APIException.setCalledFlag, RedditErrorItem.init, htf]
        | false =>
            simp [APIException.setCalledFlag, RedditErrorItem.init, htf]

/-- C5 (witness): the theorem applied to a concrete two-element list, one
pre-built record and one raw triple with a `None` field. -/
theorem claim5_parse_normalization_witness :
    ([RedditErrorItem.mk (some "k") (some "m") (some "f") true,
        RedditErrorItem.mk (some "t") (some "m2") (some "") true] :
        List RedditErrorItem).length =
      ([ExcElem.item (RedditErrorItem.mk (some "k") (some "m") (some "f") false),
        ExcElem.rawList [some "t", some "m2", none]] : List ExcElem).length ∧
    List.Forall₂ parsed_matches
      [ExcElem.item (RedditErrorItem.mk (some "k") (some "m") (some "f") false),
        ExcElem.rawList [some "t", some "m2", none]]
      [RedditErrorItem.mk (some "k") (some "m") (some "f") true,
        RedditErrorItem.mk (some "t") (some "m2") (some "") true] :=
  claim5_parse_normalization
    [ExcElem.item (RedditErrorItem.mk (some "k") (some "m") (some "f") false),
      ExcElem.rawList [some "t", some "m2", none]]
    [RedditErrorItem.mk (some "k") (some "m") (some "f") true,
      RedditErrorItem.mk (some "t") (some "m2") (some "") true] rfl

/-- C10: every record a successful `_parse_exception_list` run returns has
the `_called_from_reddit_api_exception` flag set — a pre-built record comes
back with the flag forced to `True` — and the flag's observable effect is
on `__repr__` alone: an unmarked record reprs in the constructor style, a
marked one as its `error_message`; the deprecated-attribute accessor is
unaffected by the flag. -/
theorem claim10_flag_and_repr :
    (∀ (elems : List ExcElem) (result : List RedditErrorItem),
      APIException.parse_exception_list elems = Except.ok result →
      ∀ r ∈ result, r.called_from_reddit_api_exception = true) ∧
    (∀ r : RedditErrorItem,
      APIException.parse_exception_list [ExcElem.item r] =
        Except.ok [APIException.setCalledFlag r]) ∧
    (∀ r : RedditErrorItem, r.called_from_reddit_api_exception = false →
      RedditErrorItem.repr r =
        "RedditErrorItem(error_type=" ++ pyRepr r.error_type ++ ", message=" ++
          pyRepr r.message ++ ", field=" ++ pyRepr r.field ++ ")") ∧
    (∀ r : RedditErrorItem, r.called_from_reddit_api_exception = true →
      RedditErrorItem.repr r = r.error_message) ∧
    (∀ (items : List RedditErrorItem) (attrname : String) (b : Bool),
      APIException.get_old_attr
          (items.map fun r => { r with called_from_reddit_api_exception := b })
          attrname =
        APIException.get_old_attr items attrname) := by
  refine ⟨?_, fun r => rfl, ?_, ?_, ?_⟩
  · intro elems result h r hr
    obtain ⟨base, hb, hres⟩ := parse_exception_list_eq h
    subst hres
    rw [List.mem_map] at hr
    obtain ⟨x, _, hx⟩ := hr
    rw [← hx]
    rfl
  · intro r h
    simp [RedditErrorItem.repr, h]
  · intro r h
    simp [RedditErrorItem.repr, RedditErrorItem.str, h]
  · intro items attrname b
    cases items <;> rfl

/-- C10 (witness): the theorem applied at concrete inputs: a record parsed
from a raw triple carries the flag, and the two repr shapes at a concrete
unmarked and marked record. -/
theorem claim10_flag_and_repr_witness :
    (RedditErrorItem.mk (some "a") (some "b") (some "") true).called_from_reddit_api_exception =
      true ∧
    RedditErrorItem.repr (RedditErrorItem.mk (some "a") (some "b") none false) =
      "RedditErrorItem(error_type=" ++ pyRepr (some "a") ++ ", message=" ++
        pyRepr (some "b") ++ ", field=" ++ pyRepr none ++ ")" ∧
    RedditErrorItem.repr (RedditErrorItem.mk (some "a") (some "b") none true) =
      (RedditErrorItem.mk (some "a") (some "b") none true).error_message :=
  ⟨claim10_flag_and_repr.1 [ExcElem.rawList [some "a", some "b", none]]
      [RedditErrorItem.mk (some "a") (some "b") (some "") true] rfl
      (RedditErrorItem.mk (some "a") (some "b") (some "") true)
      (List.mem_singleton.mpr rfl),
    claim10_flag_and_repr.2.2.1 (RedditErrorItem.mk (some "a") (some "b") none false) rfl,
    claim10_flag_and_repr.2.2.2.1 (RedditErrorItem.mk (some "a") (some "b") none true) rfl⟩

end Praw
